import Mathlib

/-!
Verification of the Algorand SDK example collection.

The repository is glue code over the external `algosdk` SDK and a remote
network node.  The embedding below translates the repository's functions
into pure Lean functions with explicit effect passing:

* `Network` is an oracle giving the responses of the remote node to the
  requests the code may issue;
* `World` records the observable effects of a call: the list of network
  requests issued so far and the console log;
* every effectful function of the repository becomes a Lean function
  taking its business arguments, a `Network` and a `World`, and returning
  an `Except Err` result together with the updated `World`;
* the external SDK's primitives (key derivation, mnemonic encoding,
  multisig address derivation, transaction construction and signing,
  group-id assignment) are not part of the repository; they are modelled
  from the specification's description of the SDK contract, and each such
  definition is marked `Modelled from the spec:` in its doc comment.
-/

/-- Addresses are abstracted as natural numbers. -/
abbrev Address := Nat

/-- Errors thrown by the SDK or the network are abstracted as strings. -/
abbrev Err := String

/-- Transaction identifiers returned by the submission endpoint. -/
abbrev TxId := Nat

/-- An account: a public address plus private key material
(spec §3: "a public address plus private key material"). -/
structure Account where
  addr : Address
  sk : List Nat
deriving DecidableEq, Repr

/-- Modelled from the spec: the SDK derives the address from the key
material ("address corresponds to key"); any fixed pure derivation
represents this. -/
def deriveAddr (sk : List Nat) : Address :=
  sk.foldl (fun a b => (a * 313 + b + 1) % 1000000007) 1

/-- Modelled from the spec: build the account that corresponds to a given
secret key, with address derived from the key. -/
def accountOfSk (sk : List Nat) : Account :=
  { addr := deriveAddr sk, sk := sk }

/-- Modelled from the spec: `algosdk.generateAccount` produces a fresh
account from key-generation entropy; the entropy is made an explicit
argument here. -/
def sdkGenerateAccount (entropy : List Nat) : Account :=
  accountOfSk entropy

/-- Modelled from the spec: the checksum word appended to the backup
phrase by the SDK's phrase encoding. -/
def mnemonicChecksum (sk : List Nat) : Nat :=
  sk.sum % 2048

/-- Modelled from the spec: `algosdk.secretKeyToMnemonic` encodes the
secret key as a backup phrase (abstracted as the list of key words plus a
checksum word). -/
def secretKeyToMnemonic (sk : List Nat) : List Nat :=
  sk ++ [mnemonicChecksum sk]

/-- Modelled from the spec: `algosdk.mnemonicToSecretKey` decodes a backup
phrase back into the account whose address corresponds to the decoded
key, failing on an empty or checksum-invalid phrase. -/
def mnemonicToSecretKey (m : List Nat) : Except Err Account :=
  match m.getLast? with
  | none => .error "failed to decode mnemonic: empty phrase"
  | some c =>
    if c = mnemonicChecksum m.dropLast then .ok (accountOfSk m.dropLast)
    else .error "failed to decode mnemonic: checksum validation failed"

/-- Multisig descriptor (spec §3): version tag, signature threshold,
ordered member addresses. -/
structure MultisigParams where
  version : Nat
  threshold : Nat
  addrs : List Address
deriving DecidableEq, Repr

/-- Modelled from the spec: `algosdk.multisigAddress` derives "one
deterministic composite address" from the descriptor; a pure function of
the version, threshold and ordered member list. -/
def multisigAddress (p : MultisigParams) : Address :=
  p.addrs.foldl (fun a x => (a * 131 + x + 1) % 1000000007)
    (p.version * 97 + p.threshold)

/-- Network parameters fetched from the node before constructing a
transaction ("fee parameters" in spec §3). -/
structure SuggestedParams where
  fee : Nat
  firstValid : Nat
  lastValid : Nat
  genesisID : Nat
deriving DecidableEq, Repr

/-- Transaction type discriminant of the constructed request. -/
inductive TxnType
  | pay
  | axfer
  | acfg
  | afrz
  | appl
deriving DecidableEq, Repr

/-- A transaction request (spec §3): "a structured record (sender,
receiver, amount, fee parameters, optional fields such as rekey target,
lease, application index, program bytes)".  Fields that a given
constructor does not set stay `none`. -/
structure Txn where
  typ : TxnType
  sender : Address
  receiver : Option Address := none
  amount : Option Nat := none
  note : Option (List Nat) := none
  lease : Option (List Nat) := none
  rekeyTo : Option Address := none
  assetIndex : Option Nat := none
  assetSender : Option Address := none
  appIndex : Option Nat := none
  appArgs : List (List Nat) := []
  appAccounts : List Address := []
  foreignApps : List Nat := []
  foreignAssets : List Nat := []
  approvalProgram : Option (List Nat) := none
  clearProgram : Option (List Nat) := none
  numGlobalInts : Option Nat := none
  numGlobalByteSlices : Option Nat := none
  numLocalInts : Option Nat := none
  numLocalByteSlices : Option Nat := none
  onComplete : Option Nat := none
  total : Option Nat := none
  decimals : Option Nat := none
  defaultFrozen : Option Bool := none
  manager : Option Address := none
  reserve : Option Address := none
  freeze : Option Address := none
  clawback : Option Address := none
  unitName : Option String := none
  assetName : Option String := none
  assetURL : Option String := none
  assetMetadataHash : Option (List Nat) := none
  frozen : Option Bool := none
  freezeTarget : Option Address := none
  group : Option Nat := none
  sp : SuggestedParams
deriving DecidableEq, Repr

/-- UTF-8 encoding of one character (the `TextEncoder().encode` step of
the source, spelled out on code points). -/
def utf8Bytes (c : Char) : List Nat :=
  let n := c.toNat
  if n < 128 then [n]
  else if n < 2048 then [192 + n / 64, 128 + n % 64]
  else if n < 65536 then [224 + n / 4096, 128 + n / 64 % 64, 128 + n % 64]
  else [240 + n / 262144, 128 + n / 4096 % 64, 128 + n / 64 % 64, 128 + n % 64]

/-- UTF-8 encoding of a string, as `new TextEncoder().encode(s)` in the
source. -/
def textEncode (s : String) : List Nat :=
  (s.data.map utf8Bytes).flatten

/-- Modelled from the spec: a digest of the fields of a transaction, used
by the modelled signing and group-id primitives. -/
def txnDigest (t : Txn) : Nat :=
  t.sender * 3 + (t.receiver.getD 0) * 5 + (t.amount.getD 0) * 7
    + (t.note.getD []).sum * 11 + (t.assetIndex.getD 0) * 13
    + (t.appIndex.getD 0) * 17 + t.sp.fee * 19 + t.sp.firstValid * 23

/-- A signed transaction: the request together with its signature. -/
structure SignedTxn where
  txn : Txn
  sig : Nat
deriving DecidableEq, Repr

/-- Modelled from the spec: `txn.signTxn(sk)` signs the request with the
supplied key material. -/
def signTxn (t : Txn) (sk : List Nat) : SignedTxn :=
  { txn := t, sig := txnDigest t + sk.sum * 29 }

/-- Modelled from the spec: the SDK computes one group identifier from the
whole list of transactions of an atomic group. -/
def computeGroupID (ts : List Txn) : Nat :=
  ts.foldl (fun a t => (a * 1009 + txnDigest t + 1) % 1000000007) 1

/-- Modelled from the spec: `algosdk.assignGroupID` stamps every
transaction of the list with the one shared group identifier and fails on
an empty list ("must fail (or be meaningless) for an empty set"). -/
def assignGroupID (ts : List Txn) : Except Err (List Txn) :=
  if ts.isEmpty then .error "cannot compute the group id of an empty transaction list"
  else .ok (ts.map (fun t => { t with group := some (computeGroupID ts) }))

/-- Confirmation record (spec §3): "carries inclusion round and
operation-specific fields (created asset id, created application id)". -/
structure Confirmation where
  confirmedRound : Nat
  assetIndex : Option Nat := none
  applicationIndex : Option Nat := none
deriving DecidableEq, Repr

/-- One network request issued by the code, as recorded in the `World`. -/
inductive NetRequest
  | getParams
  | submit (stxns : List SignedTxn)
  | confirm (txId : TxId) (budget : Nat)
  | accountInfo (addr : Address)
  | appInfo (appId : Nat)
  | compile (src : String)
deriving DecidableEq, Repr

/-- Global state entry value as delivered by the node: a type
discriminant, a base64 byte payload and an integer field (spec §6). -/
structure TealValue where
  type : Nat
  bytes : String
  uint : Nat
deriving DecidableEq, Repr

/-- A key/value entry of a state list, key base64-encoded. -/
structure StateItem where
  key : String
  value : TealValue
deriving DecidableEq, Repr

/-- The `params` object of an application-information response; the
`global-state` list may be absent. -/
structure AppParams where
  globalState : Option (List StateItem)
deriving DecidableEq, Repr

/-- An application-information response. -/
structure AppInfo where
  params : AppParams
deriving DecidableEq, Repr

/-- One entry of the `apps-local-state` list of an account-information
response; the `key-value` list may be absent. -/
structure AppLocalState where
  id : Nat
  keyValue : Option (List StateItem)
deriving DecidableEq, Repr

/-- An account-information response; the `apps-local-state` list may be
absent. -/
structure AccountInfo where
  appsLocalState : Option (List AppLocalState)
deriving DecidableEq, Repr

/-- The network oracle: the responses the remote node gives to each kind
of request the code may issue. -/
structure Network where
  paramsResp : Except Err SuggestedParams
  submitResp : List SignedTxn → Except Err TxId
  confirmResp : TxId → Nat → Except Err Confirmation
  accountInfoResp : Address → Except Err AccountInfo
  appInfoResp : Nat → Except Err AppInfo
  compileResp : String → Except Err (List Nat)

/-- The observable effects of a call: network requests issued and console
log lines printed. -/
structure World where
  requests : List NetRequest
  log : List String

/-- Record one network request. -/
def pushReq (w : World) (r : NetRequest) : World :=
  { w with requests := w.requests ++ [r] }

/-- Print one console line. -/
def pushLog (w : World) (s : String) : World :=
  { w with log := w.log ++ [s] }

/-- The `try { body } catch (error) { console.error(ctx, error); throw
error; }` wrapper that every operation of the repository uses: on failure
it logs the error with its context line and re-raises the same error. -/
def tryCatchLog {α : Type} (body : World → Except Err α × World) (ctx : String)
    (w : World) : Except Err α × World :=
  match body w with
  | (.ok a, w') => (.ok a, w')
  | (.error e, w') => (.error e, pushLog w' (ctx ++ " " ++ e))

/-- The `algosdk.waitForConfirmation(client, txId, budget)` primitive:
issue a confirmation-wait request with the given round budget and return
the node's answer. -/
def waitForConfirmation (net : Network) (txId : TxId) (budget : Nat)
    (w : World) : Except Err Confirmation × World :=
  (net.confirmResp txId budget, pushReq w (.confirm txId budget))

/-- The `algodClient.getTransactionParams().do()` step. -/
def getTransactionParams (net : Network) (w : World) :
    Except Err SuggestedParams × World :=
  (net.paramsResp, pushReq w .getParams)

/-- The sign/submit/log/confirm/log tail shared verbatim by every
submitting operation of the repository: submit the signed transactions,
log the transaction id, wait for confirmation with a round budget of 5,
log the inclusion round, return the confirmation record. -/
def signSubmitConfirm (net : Network) (stxns : List SignedTxn)
    (idMsg roundMsg : String) (w : World) : Except Err Confirmation × World :=
  let w1 := pushReq w (.submit stxns)
  match net.submitResp stxns with
  | .error e => (.error e, w1)
  | .ok txId =>
    let w2 := pushLog w1 (idMsg ++ toString txId)
    match waitForConfirmation net txId 5 w2 with
    | (.error e, w3) => (.error e, w3)
    | (.ok c, w3) => (.ok c, pushLog w3 (roundMsg ++ toString c.confirmedRound))

/-- The `generateAccount` function of the account-management file: create
an account, log its address, derive and log its backup phrase, return
both. -/
def generateAccount (entropy : List Nat) (w : World) :
    (Account × List Nat) × World :=
  let account := sdkGenerateAccount entropy
  let w1 := pushLog w ("Generated Account Address: " ++ toString account.addr)
  let mnemonic := secretKeyToMnemonic account.sk
  let w2 := pushLog w1 ("Account Mnemonic: " ++ toString mnemonic)
  ((account, mnemonic), w2)

/-- The `recoverAccount` function: decode the phrase with the SDK, log
and return the recovered account. -/
def recoverAccount (mnemonic : List Nat) (w : World) :
    Except Err Account × World :=
  match mnemonicToSecretKey mnemonic with
  | .error e => (.error e, w)
  | .ok a => (.ok a, pushLog w ("Recovered Account Address: " ++ toString a.addr))

/-- The `createMultisigAccount` function: build the descriptor with
version 1 and the given threshold and member list, derive the composite
address with the SDK, log it, return both.  It takes no `Network`: the
source performs no network call here. -/
def createMultisigAccount (addresses : List Address) (threshold : Nat)
    (w : World) : (MultisigParams × Address) × World :=
  let multisigParams : MultisigParams :=
    { version := 1, threshold := threshold, addrs := addresses }
  let addr := multisigAddress multisigParams
  ((multisigParams, addr), pushLog w ("Multisig Address: " ++ toString addr))

/-- The `typeof receiver === 'string' ? receiver : receiver.addr.toString()`
conversion used throughout the repository: an argument is either an
address or an account object. -/
def receiverAddress : Address ⊕ Account → Address
  | .inl a => a
  | .inr acct => acct.addr

/-- Modelled from the spec: `makePaymentTxnWithSuggestedParamsFromObject`
records the given payment fields in a fresh transaction request. -/
def makePaymentTxn (sender receiver : Address) (amount : Nat)
    (note lease : Option (List Nat)) (rekeyTo : Option Address)
    (sp : SuggestedParams) : Txn :=
  { typ := .pay, sender := sender, receiver := some receiver,
    amount := some amount, note := note, lease := lease,
    rekeyTo := rekeyTo, sp := sp }

/-- Modelled from the spec:
`makeAssetTransferTxnWithSuggestedParamsFromObject` records the given
asset-transfer fields in a fresh transaction request. -/
def makeAssetTransferTxn (sender receiver : Address) (amount : Nat)
    (assetIndex : Nat) (assetSender : Option Address)
    (sp : SuggestedParams) : Txn :=
  { typ := .axfer, sender := sender, receiver := some receiver,
    amount := some amount, assetIndex := some assetIndex,
    assetSender := assetSender, sp := sp }

/-- The payment request `sendPayment` of the transaction-operations file
constructs: the note is UTF-8 encoded when non-empty and left out when
the string is empty (`note ? new TextEncoder().encode(note) : undefined`). -/
def sendPaymentTxn (sender : Account) (receiver : Address ⊕ Account)
    (amount : Nat) (note : String) (sp : SuggestedParams) : Txn :=
  makePaymentTxn sender.addr (receiverAddress receiver) amount
    (if note = "" then none else some (textEncode note)) none none sp

/-- The asset-creation request `createAsset` constructs, with every role
address set to the creator. -/
def createAssetTxn (creator : Account) (assetName unitName : String)
    (totalIssuance decimals : Nat) (url : String)
    (metadataHash : Option (List Nat)) (sp : SuggestedParams) : Txn :=
  { typ := .acfg, sender := creator.addr, total := some totalIssuance,
    decimals := some decimals, defaultFrozen := some false,
    manager := some creator.addr, reserve := some creator.addr,
    freeze := some creator.addr, clawback := some creator.addr,
    unitName := some unitName, assetName := some assetName,
    assetURL := some url, assetMetadataHash := metadataHash, sp := sp }

/-- The opt-in request `optInToAsset` constructs: "Opt-in is simply a 0
amount asset transfer to yourself". -/
def optInTxn (account : Account) (assetId : Nat)
    (sp : SuggestedParams) : Txn :=
  makeAssetTransferTxn account.addr account.addr 0 assetId none sp

/-- The transfer request `transferAsset` constructs. -/
def transferAssetTxn (sender : Account) (receiver : Address ⊕ Account)
    (assetId amount : Nat) (sp : SuggestedParams) : Txn :=
  makeAssetTransferTxn sender.addr (receiverAddress receiver) amount
    assetId none sp

/-- The self-payment with a rekey-to field `rekeyAccount` constructs. -/
def rekeyTxn (account authAccount : Account) (sp : SuggestedParams) : Txn :=
  makePaymentTxn account.addr account.addr 0 none none
    (some authAccount.addr) sp

/-- The note attached to the i-th payment of an atomic group. -/
def atomicNote (i : Nat) : List Nat :=
  textEncode ("Payment " ++ toString (i + 1) ++ " in atomic group")

/-- The list of payment requests `sendAtomicTransactions` prepares, one
per receiver, each with its indexed note. -/
def atomicTxns (sender : Account) (receivers : List (Address ⊕ Account))
    (amount : Nat) (sp : SuggestedParams) : List Txn :=
  receivers.mapIdx (fun i receiver =>
    makePaymentTxn sender.addr (receiverAddress receiver) amount
      (some (atomicNote i)) none none sp)

/-- The application-creation request `createApplication` constructs
(`onComplete` 0 is `NoOpOC`). -/
def createApplicationTxn (creator : Account) (approval clear : List Nat)
    (globalInts globalBytes localInts localBytes : Nat)
    (sp : SuggestedParams) : Txn :=
  { typ := .appl, sender := creator.addr, onComplete := some 0,
    approvalProgram := some approval, clearProgram := some clear,
    numGlobalByteSlices := some globalBytes,
    numGlobalInts := some globalInts,
    numLocalByteSlices := some localBytes,
    numLocalInts := some localInts, sp := sp }

/-- The application-call (NoOp) request `callApplication` constructs,
with string arguments UTF-8 encoded and account objects converted to
addresses. -/
def callApplicationTxn (sender : Account) (appId : Nat)
    (appArgs : List (String ⊕ List Nat))
    (accounts : List (Address ⊕ Account))
    (foreignApps foreignAssets : List Nat) (sp : SuggestedParams) : Txn :=
  { typ := .appl, sender := sender.addr, appIndex := some appId,
    appArgs := appArgs.map (fun a =>
      match a with
      | .inl s => textEncode s
      | .inr bytes => bytes),
    appAccounts := accounts.map receiverAddress,
    foreignApps := foreignApps, foreignAssets := foreignAssets, sp := sp }

/-- Modelled from the spec: the ABI method-call transaction the
AtomicTransactionComposer composes ("wraps a single call inside the
atomic-group mechanism with automatic parameter encoding"). -/
def abiMethodCallTxn (sender : Account) (appId : Nat)
    (methodName : String) (methodArgs : List String)
    (sp : SuggestedParams) : Txn :=
  { typ := .appl, sender := sender.addr, appIndex := some appId,
    appArgs := textEncode methodName :: methodArgs.map textEncode,
    sp := sp }

/-- The `sendPayment` body (transaction-operations file): fetch
parameters, build the payment, sign, submit, wait for confirmation with
round budget 5, return the confirmation record. -/
def sendPaymentBody (sender : Account) (receiver : Address ⊕ Account)
    (amount : Nat) (note : String) (net : Network) (w : World) :
    Except Err Confirmation × World :=
  match getTransactionParams net w with
  | (.error e, w1) => (.error e, w1)
  | (.ok sp, w1) =>
    signSubmitConfirm net
      [signTxn (sendPaymentTxn sender receiver amount note sp) sender.sk]
      "Payment Transaction ID: " "Transaction confirmed in round: " w1

/-- The `sendPayment` operation: its body wrapped in the log-and-rethrow
catch. -/
def sendPayment (sender : Account) (receiver : Address ⊕ Account)
    (amount : Nat) (note : String) (net : Network) (w : World) :
    Except Err Confirmation × World :=
  tryCatchLog (sendPaymentBody sender receiver amount note net)
    "Error sending payment:" w

/-- The `createAsset` body: fetch parameters, build, sign, submit,
confirm, then extract and log the created asset id, which is what the
function returns. -/
def createAssetBody (creator : Account) (assetName unitName : String)
    (totalIssuance decimals : Nat) (url : String)
    (metadataHash : Option (List Nat)) (net : Network) (w : World) :
    Except Err (Option Nat) × World :=
  match getTransactionParams net w with
  | (.error e, w1) => (.error e, w1)
  | (.ok sp, w1) =>
    match signSubmitConfirm net
        [signTxn (createAssetTxn creator assetName unitName totalIssuance
          decimals url metadataHash sp) creator.sk]
        "Asset Creation Transaction ID: " "Asset created in round: " w1 with
    | (.error e, w2) => (.error e, w2)
    | (.ok c, w2) =>
      (.ok c.assetIndex, pushLog w2 ("Asset ID: " ++ toString c.assetIndex))

/-- The `createAsset` operation. -/
def createAsset (creator : Account) (assetName unitName : String)
    (totalIssuance decimals : Nat) (url : String)
    (metadataHash : Option (List Nat)) (net : Network) (w : World) :
    Except Err (Option Nat) × World :=
  tryCatchLog (createAssetBody creator assetName unitName totalIssuance
    decimals url metadataHash net) "Error creating asset:" w

/-- The `optInToAsset` body. -/
def optInToAssetBody (account : Account) (assetId : Nat) (net : Network)
    (w : World) : Except Err Confirmation × World :=
  match getTransactionParams net w with
  | (.error e, w1) => (.error e, w1)
  | (.ok sp, w1) =>
    signSubmitConfirm net [signTxn (optInTxn account assetId sp) account.sk]
      "Opt-in Transaction ID: " "Opt-in confirmed in round: " w1

/-- The `optInToAsset` operation. -/
def optInToAsset (account : Account) (assetId : Nat) (net : Network)
    (w : World) : Except Err Confirmation × World :=
  tryCatchLog (optInToAssetBody account assetId net)
    "Error opting in to asset:" w

/-- The `transferAsset` body. -/
def transferAssetBody (sender : Account) (receiver : Address ⊕ Account)
    (assetId amount : Nat) (net : Network) (w : World) :
    Except Err Confirmation × World :=
  match getTransactionParams net w with
  | (.error e, w1) => (.error e, w1)
  | (.ok sp, w1) =>
    signSubmitConfirm net
      [signTxn (transferAssetTxn sender receiver assetId amount sp) sender.sk]
      "Asset Transfer Transaction ID: "
      "Asset transfer confirmed in round: " w1

/-- The `transferAsset` operation. -/
def transferAsset (sender : Account) (receiver : Address ⊕ Account)
    (assetId amount : Nat) (net : Network) (w : World) :
    Except Err Confirmation × World :=
  tryCatchLog (transferAssetBody sender receiver assetId amount net)
    "Error transferring asset:" w

/-- The `rekeyAccount` body: zero-amount self-payment carrying the
rekey-to field, then a final status line. -/
def rekeyAccountBody (account authAccount : Account) (net : Network)
    (w : World) : Except Err Confirmation × World :=
  match getTransactionParams net w with
  | (.error e, w1) => (.error e, w1)
  | (.ok sp, w1) =>
    match signSubmitConfirm net
        [signTxn (rekeyTxn account authAccount sp) account.sk]
        "Rekey Transaction ID: "
        "Rekey transaction confirmed in round: " w1 with
    | (.error e, w2) => (.error e, w2)
    | (.ok c, w2) =>
      (.ok c, pushLog w2 ("Account " ++ toString account.addr
        ++ " has been rekeyed to " ++ toString authAccount.addr))

/-- The `rekeyAccount` operation. -/
def rekeyAccount (account authAccount : Account) (net : Network)
    (w : World) : Except Err Confirmation × World :=
  tryCatchLog (rekeyAccountBody account authAccount net)
    "Error rekeying account:" w

/-- The `sendAtomicTransactions` body: prepare one payment per receiver,
assign the shared group identifier to the list, then sign the grouped
transactions and submit them as one group. -/
def sendAtomicTransactionsBody (sender : Account)
    (receivers : List (Address ⊕ Account)) (amount : Nat) (net : Network)
    (w : World) : Except Err Confirmation × World :=
  match getTransactionParams net w with
  | (.error e, w1) => (.error e, w1)
  | (.ok sp, w1) =>
    match assignGroupID (atomicTxns sender receivers amount sp) with
    | .error e => (.error e, w1)
    | .ok gtxns =>
      signSubmitConfirm net (gtxns.map (fun t => signTxn t sender.sk))
        "Atomic Transaction Group ID: "
        "Atomic transactions confirmed in round: " w1

/-- The `sendAtomicTransactions` operation. -/
def sendAtomicTransactions (sender : Account)
    (receivers : List (Address ⊕ Account)) (amount : Nat) (net : Network)
    (w : World) : Except Err Confirmation × World :=
  tryCatchLog (sendAtomicTransactionsBody sender receivers amount net)
    "Error sending atomic transactions:" w

/-- The `compileProgram` body: ask the node to compile the source and
return the program bytes. -/
def compileProgramBody (programSource : String) (net : Network)
    (w : World) : Except Err (List Nat) × World :=
  let w1 := pushReq w (.compile programSource)
  match net.compileResp programSource with
  | .error e => (.error e, w1)
  | .ok bytes => (.ok bytes, pushLog w1 "Program compiled successfully")

/-- The `compileProgram` operation. -/
def compileProgram (programSource : String) (net : Network) (w : World) :
    Except Err (List Nat) × World :=
  tryCatchLog (compileProgramBody programSource net)
    "Error compiling program:" w

/-- The `createApplication` body: compile both programs, fetch
parameters, build, sign, submit, confirm, then extract and log the
created application id, which is what the function returns. -/
def createApplicationBody (creator : Account)
    (approvalProgram clearProgram : String)
    (globalInts globalBytes localInts localBytes : Nat) (net : Network)
    (w : World) : Except Err (Option Nat) × World :=
  match compileProgram approvalProgram net w with
  | (.error e, w1) => (.error e, w1)
  | (.ok compiledApproval, w1) =>
    match compileProgram clearProgram net w1 with
    | (.error e, w2) => (.error e, w2)
    | (.ok compiledClear, w2) =>
      match getTransactionParams net w2 with
      | (.error e, w3) => (.error e, w3)
      | (.ok sp, w3) =>
        match signSubmitConfirm net
            [signTxn (createApplicationTxn creator compiledApproval
              compiledClear globalInts globalBytes localInts localBytes sp)
              creator.sk]
            "Application Creation Transaction ID: "
            "Application created in round: " w3 with
        | (.error e, w4) => (.error e, w4)
        | (.ok c, w4) =>
          (.ok c.applicationIndex,
            pushLog w4 ("Application ID: " ++ toString c.applicationIndex))

/-- The `createApplication` operation. -/
def createApplication (creator : Account)
    (approvalProgram clearProgram : String)
    (globalInts globalBytes localInts localBytes : Nat) (net : Network)
    (w : World) : Except Err (Option Nat) × World :=
  tryCatchLog (createApplicationBody creator approvalProgram clearProgram
    globalInts globalBytes localInts localBytes net)
    "Error creating application:" w

/-- The `callApplication` body (smart-contracts file). -/
def callApplicationBody (sender : Account) (appId : Nat)
    (appArgs : List (String ⊕ List Nat))
    (accounts : List (Address ⊕ Account))
    (foreignApps foreignAssets : List Nat) (net : Network) (w : World) :
    Except Err Confirmation × World :=
  match getTransactionParams net w with
  | (.error e, w1) => (.error e, w1)
  | (.ok sp, w1) =>
    signSubmitConfirm net
      [signTxn (callApplicationTxn sender appId appArgs accounts
        foreignApps foreignAssets sp) sender.sk]
      "Application Call Transaction ID: "
      "Application call confirmed in round: " w1

/-- The `callApplication` operation. -/
def callApplication (sender : Account) (appId : Nat)
    (appArgs : List (String ⊕ List Nat))
    (accounts : List (Address ⊕ Account))
    (foreignApps foreignAssets : List Nat) (net : Network) (w : World) :
    Except Err Confirmation × World :=
  tryCatchLog (callApplicationBody sender appId appArgs accounts foreignApps
    foreignAssets net) "Error calling application:" w

/-- Modelled from the spec: `atc.execute(client, budget)` submits the
composed group and calls the confirmation-wait primitive with the given
round budget. -/
def atcExecute (net : Network) (stxns : List SignedTxn) (budget : Nat)
    (w : World) : Except Err Confirmation × World :=
  let w1 := pushReq w (.submit stxns)
  match net.submitResp stxns with
  | .error e => (.error e, w1)
  | .ok txId =>
    match waitForConfirmation net txId budget w1 with
    | (.error e, w2) => (.error e, w2)
    | (.ok c, w2) => (.ok c, w2)

/-- The `callABIMethod` body: fetch parameters, compose the method call,
execute the group with a round budget of 5. -/
def callABIMethodBody (sender : Account) (appId : Nat)
    (methodName : String) (methodArgs : List String) (net : Network)
    (w : World) : Except Err Confirmation × World :=
  match getTransactionParams net w with
  | (.error e, w1) => (.error e, w1)
  | (.ok sp, w1) =>
    atcExecute net
      [signTxn (abiMethodCallTxn sender appId methodName methodArgs sp)
        sender.sk] 5 w1

/-- The `callABIMethod` operation. -/
def callABIMethod (sender : Account) (appId : Nat) (methodName : String)
    (methodArgs : List String) (net : Network) (w : World) :
    Except Err Confirmation × World :=
  tryCatchLog (callABIMethodBody sender appId methodName methodArgs net)
    "Error calling ABI method:" w

/-- A decoded state value: text for discriminant 1, integer otherwise. -/
inductive StateVal
  | str (s : String)
  | int (n : Nat)
deriving DecidableEq, Repr

/-- The base64 alphabet used by the payload encoding. -/
def base64Alphabet : List Char :=
  "ABCDEFGHIJKLMNOPQRSTUVWXYZabcdefghijklmnopqrstuvwxyz0123456789+/".toList

/-- Index of a character in the base64 alphabet. -/
def b64Index (c : Char) : Option Nat :=
  base64Alphabet.findIdx? (fun x => x = c)

/-- One step of base64 bit reassembly: push six bits into the buffer and
emit a byte whenever eight bits are available. -/
def b64Step (acc : Nat × Nat × List Nat) (v : Nat) : Nat × Nat × List Nat :=
  let buf := acc.1 * 64 + v
  let bits := acc.2.1 + 6
  if 8 ≤ bits then
    (buf % 2 ^ (bits - 8), bits - 8, acc.2.2 ++ [buf / 2 ^ (bits - 8)])
  else (buf, bits, acc.2.2)

/-- Base64 decoding to raw bytes (`Buffer.from(s, 'base64')`). -/
def b64DecodeBytes (s : String) : List Nat :=
  (((s.toList.filter (fun c => c ≠ '=')).filterMap b64Index).foldl
    b64Step (0, 0, [])).2.2

/-- Modelled from the spec: `Buffer.prototype.toString` interprets the
decoded bytes as text; abstracted as the code-point reading of each
byte. -/
def bytesToText (bs : List Nat) : String :=
  String.mk (bs.map Char.ofNat)

/-- Base64-decode a payload and interpret it as text
(`Buffer.from(s, 'base64').toString()`). -/
def b64ToText (s : String) : String :=
  bytesToText (b64DecodeBytes s)

/-- The value decoding shared by `readGlobalState` and `readLocalState`:
discriminant 1 means the base64 payload read as text, anything else means
the integer field. -/
def decodeStateValue (v : TealValue) : StateVal :=
  if v.type = 1 then .str (b64ToText v.bytes) else .int v.uint

/-- JavaScript object insertion `obj[key] = value`: overwrite the key if
present, append it otherwise. -/
def objInsert (l : List (String × StateVal)) (k : String) (v : StateVal) :
    List (String × StateVal) :=
  if l.any (fun p => p.1 = k) then
    l.map (fun p => if p.1 = k then (k, v) else p)
  else l ++ [(k, v)]

/-- The key/value decoding loop shared by both state readers: base64
decode each key, decode each value by its discriminant, accumulate into
the result object. -/
def decodeStateItems (items : List StateItem) :
    List (String × StateVal) :=
  items.foldl
    (fun st it => objInsert st (b64ToText it.key) (decodeStateValue it.value))
    []

/-- The `readGlobalState` body: fetch the application, decode its
`global-state` list when present, return the empty object otherwise. -/
def readGlobalStateBody (appId : Nat) (net : Network) (w : World) :
    Except Err (List (String × StateVal)) × World :=
  let w1 := pushReq w (.appInfo appId)
  match net.appInfoResp appId with
  | .error e => (.error e, w1)
  | .ok application =>
    let globalState :=
      match application.params.globalState with
      | none => []
      | some items => decodeStateItems items
    (.ok globalState, pushLog w1 "Global State:")

/-- The `readGlobalState` operation. -/
def readGlobalState (appId : Nat) (net : Network) (w : World) :
    Except Err (List (String × StateVal)) × World :=
  tryCatchLog (readGlobalStateBody appId net) "Error reading global state:" w

/-- The `readLocalState` body: fetch the account information, locate the
entry of `apps-local-state` whose id equals the requested application id,
decode its `key-value` list; every missing layer yields the empty
object. -/
def readLocalStateBody (account : Address ⊕ Account) (appId : Nat)
    (net : Network) (w : World) :
    Except Err (List (String × StateVal)) × World :=
  let accountAddress := receiverAddress account
  let w1 := pushReq w (.accountInfo accountAddress)
  match net.accountInfoResp accountAddress with
  | .error e => (.error e, w1)
  | .ok accountInfo =>
    let localState :=
      match accountInfo.appsLocalState with
      | none => []
      | some apps =>
        match apps.find? (fun a => a.id == appId) with
        | none => []
        | some appLocalState =>
          match appLocalState.keyValue with
          | none => []
          | some items => decodeStateItems items
    (.ok localState, pushLog w1 "Local State:")

/-- The `readLocalState` operation. -/
def readLocalState (account : Address ⊕ Account) (appId : Nat)
    (net : Network) (w : World) :
    Except Err (List (String × StateVal)) × World :=
  tryCatchLog (readLocalStateBody account appId net)
    "Error reading local state:" w

/-- Relation between the starting and finishing `World` of a call: every
confirmation-wait request that the call added was issued with a round
budget of exactly 5. -/
def confirmStaysFive (w w' : World) : Prop :=
  ∀ t b, NetRequest.confirm t b ∈ w'.requests →
    NetRequest.confirm t b ∈ w.requests ∨ b = 5

/-- Concrete fixture: suggested parameters. -/
def sp0 : SuggestedParams :=
  { fee := 1000, firstValid := 10, lastValid := 1010, genesisID := 3 }

/-- Concrete fixture: an account. -/
def acct0 : Account := accountOfSk [1, 2, 3]

/-- Concrete fixture: a second account. -/
def acct1 : Account := accountOfSk [4, 5, 6]

/-- Concrete fixture: a confirmation record included in round 4. -/
def conf4 : Confirmation :=
  { confirmedRound := 4, assetIndex := some 7, applicationIndex := some 9 }

/-- Concrete fixture: a confirmation record included in round 11. -/
def conf11 : Confirmation :=
  { confirmedRound := 11, assetIndex := some 7, applicationIndex := some 9 }

/-- Concrete fixture: a network on which every step succeeds and every
confirmation wait reports the given record. -/
def netOk (c : Confirmation) : Network :=
  { paramsResp := .ok sp0,
    submitResp := fun _ => .ok 1,
    confirmResp := fun _ _ => .ok c,
    accountInfoResp := fun _ => .error "unused",
    appInfoResp := fun _ => .error "unused",
    compileResp := fun _ => .ok [9, 9] }

/-- Concrete fixture: a network on which every request fails. -/
def netFail : Network :=
  { paramsResp := .error "boom",
    submitResp := fun _ => .error "boom",
    confirmResp := fun _ _ => .error "boom",
    accountInfoResp := fun _ => .error "boom",
    appInfoResp := fun _ => .error "boom",
    compileResp := fun _ => .error "boom" }

/-- Concrete fixture: a network whose application-information response
carries the given global-state list. -/
def netApp (gs : Option (List StateItem)) : Network :=
  { paramsResp := .error "unused",
    submitResp := fun _ => .error "unused",
    confirmResp := fun _ _ => .error "unused",
    accountInfoResp := fun _ => .error "unused",
    appInfoResp := fun _ => .ok { params := { globalState := gs } },
    compileResp := fun _ => .error "unused" }

/-- Concrete fixture: a network whose account-information response
carries the given apps-local-state list. -/
def netAcct (als : Option (List AppLocalState)) : Network :=
  { paramsResp := .error "unused",
    submitResp := fun _ => .error "unused",
    confirmResp := fun _ _ => .error "unused",
    accountInfoResp := fun _ => .ok { appsLocalState := als },
    appInfoResp := fun _ => .error "unused",
    compileResp := fun _ => .error "unused" }

/-- Concrete fixture: a byte-string state entry (key "YQ==" is "a",
payload "aGk=" is "hi"). -/
def stateItem1 : StateItem :=
  { key := "YQ==", value := { type := 1, bytes := "aGk=", uint := 0 } }

/-- Concrete fixture: an integer state entry (key "Yg==" is "b"). -/
def stateItem2 : StateItem :=
  { key := "Yg==", value := { type := 0, bytes := "", uint := 42 } }

/-- Concrete fixture: the empty starting world. -/
def w0 : World := { requests := [], log := [] }

/-- The value `assignGroupID` produces on the non-empty prepared list of
`sendAtomicTransactions`: every prepared payment stamped with the one
shared group identifier. -/
def groupedAtomicTxns (sender : Account)
    (receivers : List (Address ⊕ Account)) (amount : Nat)
    (sp : SuggestedParams) : List Txn :=
  let ts := atomicTxns sender receivers amount sp
  ts.map (fun t => { t with group := some (computeGroupID ts) })

/-- Claim C1: generating an account and recovering it from its derived
backup phrase yields the identical account, hence the identical address
(phrase-to-keys recovery is a round trip on the address). -/
theorem claim_C1 (entropy : List Nat) (w w' : World) :
    (recoverAccount ((generateAccount entropy w).1.2) w').1
      = .ok ((generateAccount entropy w).1.1) := by
  simp [recoverAccount, generateAccount, mnemonicToSecretKey,
    secretKeyToMnemonic, sdkGenerateAccount, accountOfSk,
    List.getLast?_concat, List.dropLast_concat]

/-- Claim C2: `createMultisigAccount` is deterministic and performs no
network call: two calls with the same ordered member list and threshold
return the same descriptor and multisig address whatever the ambient
state, and the request trace is left unchanged. -/
theorem claim_C2 (addresses : List Address) (threshold : Nat)
    (w₁ w₂ : World) :
    (createMultisigAccount addresses threshold w₁).1
        = (createMultisigAccount addresses threshold w₂).1
      ∧ (createMultisigAccount addresses threshold w₁).2.requests
        = w₁.requests := by
  exact ⟨rfl, rfl⟩

theorem pushLog_requests (w : World) (s : String) :
    (pushLog w s).requests = w.requests := rfl

theorem pushReq_requests (w : World) (r : NetRequest) :
    (pushReq w r).requests = w.requests ++ [r] := rfl

theorem tryCatchLog_fst {α : Type} (body : World → Except Err α × World)
    (ctx : String) (w : World) : (tryCatchLog body ctx w).1 = (body w).1 := by
  unfold tryCatchLog
  rcases hb : body w with ⟨r, w'⟩
  cases r <;> simp

theorem tryCatchLog_requests {α : Type} (body : World → Except Err α × World)
    (ctx : String) (w : World) :
    (tryCatchLog body ctx w).2.requests = (body w).2.requests := by
  unfold tryCatchLog
  rcases hb : body w with ⟨r, w'⟩
  cases r <;> simp [pushLog]

theorem tryCatchLog_ok {α : Type} (body : World → Except Err α × World)
    (ctx : String) (w : World) (a : α) (h : (body w).1 = .ok a) :
    tryCatchLog body ctx w = body w := by
  unfold tryCatchLog
  rcases hb : body w with ⟨r, w'⟩
  rw [hb] at h
  cases r with
  | ok a' => rfl
  | error e => simp at h

theorem tryCatchLog_error_log {α : Type} (body : World → Except Err α × World)
    (ctx : String) (w : World) (e : Err) (h : (body w).1 = .error e) :
    (tryCatchLog body ctx w).2.log = (body w).2.log ++ [ctx ++ " " ++ e] := by
  unfold tryCatchLog
  rcases hb : body w with ⟨r, w'⟩
  rw [hb] at h
  cases r with
  | ok a' => simp at h
  | error e' =>
    simp only [Except.error.injEq] at h
    subst h
    simp [pushLog]

theorem confirmStaysFive_refl (w : World) : confirmStaysFive w w :=
  fun _ _ h => .inl h

theorem confirmStaysFive_trans {w₁ w₂ w₃ : World}
    (h12 : confirmStaysFive w₁ w₂) (h23 : confirmStaysFive w₂ w₃) :
    confirmStaysFive w₁ w₃ := by
  intro t b h
  rcases h23 t b h with h' | h'
  · exact h12 t b h'
  · exact .inr h'

theorem confirmStaysFive_of_requests_eq {w w₂ w₃ : World}
    (he : w₃.requests = w₂.requests) (h : confirmStaysFive w w₂) :
    confirmStaysFive w w₃ := by
  intro t b hm
  exact h t b (he ▸ hm)

theorem confirmStaysFive_pushLog {w w' : World} (s : String)
    (h : confirmStaysFive w w') : confirmStaysFive w (pushLog w' s) :=
  confirmStaysFive_of_requests_eq (pushLog_requests w' s) h

theorem confirmStaysFive_pushReq {w w' : World} (r : NetRequest)
    (h : confirmStaysFive w w')
    (hr : ∀ t b, r = NetRequest.confirm t b → b = 5) :
    confirmStaysFive w (pushReq w' r) := by
  intro t b hm
  rw [pushReq_requests] at hm
  rcases List.mem_append.mp hm with hm | hm
  · exact h t b hm
  · exact .inr (hr t b (List.mem_singleton.mp hm).symm)

theorem confirmStaysFive_sSC (net : Network) (stxns : List SignedTxn)
    (idMsg roundMsg : String) (w : World) :
    confirmStaysFive w (signSubmitConfirm net stxns idMsg roundMsg w).2 := by
  have h1 : confirmStaysFive w (pushReq w (.submit stxns)) :=
    confirmStaysFive_pushReq _ (confirmStaysFive_refl w)
      (by intro t b h; exact absurd h (by simp))
  unfold signSubmitConfirm
  cases hs : net.submitResp stxns with
  | error e => simpa using h1
  | ok txId =>
    have h2 : confirmStaysFive w
        (pushLog (pushReq w (.submit stxns)) (idMsg ++ toString txId)) :=
      confirmStaysFive_pushLog _ h1
    have h3 : confirmStaysFive w
        (pushReq (pushLog (pushReq w (.submit stxns))
          (idMsg ++ toString txId)) (.confirm txId 5)) :=
      confirmStaysFive_pushReq _ h2
        (by intro t b h; injection h with h1 h2; exact h2.symm)
    unfold waitForConfirmation
    cases hc : net.confirmResp txId 5 with
    | error e => simpa [hc] using h3
    | ok c => simpa [hc] using confirmStaysFive_pushLog _ h3

theorem confirmStaysFive_sSC' (net : Network) (stxns : List SignedTxn)
    (idMsg roundMsg : String) (w : World)
    {p : Except Err Confirmation × World}
    (h : signSubmitConfirm net stxns idMsg roundMsg w = p) :
    confirmStaysFive w p.2 :=
  h ▸ confirmStaysFive_sSC net stxns idMsg roundMsg w

theorem confirmStaysFive_getParams (w : World) :
    confirmStaysFive w (pushReq w .getParams) :=
  confirmStaysFive_pushReq _ (confirmStaysFive_refl w)
    (by intro t b h; exact absurd h (by simp))

theorem confirmStaysFive_tryCatchLog {α : Type}
    (body : World → Except Err α × World) (ctx : String) (w : World)
    (h : confirmStaysFive w (body w).2) :
    confirmStaysFive w (tryCatchLog body ctx w).2 :=
  confirmStaysFive_of_requests_eq (tryCatchLog_requests body ctx w) h

theorem confirmStaysFive_sendPaymentBody (sender : Account)
    (receiver : Address ⊕ Account) (amount : Nat) (note : String)
    (net : Network) (w : World) :
    confirmStaysFive w (sendPaymentBody sender receiver amount note net w).2 := by
  unfold sendPaymentBody getTransactionParams
  cases hp : net.paramsResp with
  | error e => simpa [hp] using confirmStaysFive_getParams w
  | ok sp =>
    simp only [hp]
    exact confirmStaysFive_trans (confirmStaysFive_getParams w)
      (confirmStaysFive_sSC net _ _ _ _)

theorem confirmStaysFive_sendPayment (sender : Account)
    (receiver : Address ⊕ Account) (amount : Nat) (note : String)
    (net : Network) (w : World) :
    confirmStaysFive w (sendPayment sender receiver amount note net w).2 :=
  confirmStaysFive_tryCatchLog _ _ _
    (confirmStaysFive_sendPaymentBody sender receiver amount note net w)

theorem confirmStaysFive_optInToAssetBody (account : Account)
    (assetId : Nat) (net : Network) (w : World) :
    confirmStaysFive w (optInToAssetBody account assetId net w).2 := by
  unfold optInToAssetBody getTransactionParams
  cases hp : net.paramsResp with
  | error e => simpa [hp] using confirmStaysFive_getParams w
  | ok sp =>
    simp only [hp]
    exact confirmStaysFive_trans (confirmStaysFive_getParams w)
      (confirmStaysFive_sSC net _ _ _ _)

theorem confirmStaysFive_optInToAsset (account : Account) (assetId : Nat)
    (net : Network) (w : World) :
    confirmStaysFive w (optInToAsset account assetId net w).2 :=
  confirmStaysFive_tryCatchLog _ _ _
    (confirmStaysFive_optInToAssetBody account assetId net w)

theorem confirmStaysFive_transferAssetBody (sender : Account)
    (receiver : Address ⊕ Account) (assetId amount : Nat) (net : Network)
    (w : World) :
    confirmStaysFive w (transferAssetBody sender receiver assetId amount net w).2 := by
  unfold transferAssetBody getTransactionParams
  cases hp : net.paramsResp with
  | error e => simpa [hp] using confirmStaysFive_getParams w
  | ok sp =>
    simp only [hp]
    exact confirmStaysFive_trans (confirmStaysFive_getParams w)
      (confirmStaysFive_sSC net _ _ _ _)

theorem confirmStaysFive_transferAsset (sender : Account)
    (receiver : Address ⊕ Account) (assetId amount : Nat) (net : Network)
    (w : World) :
    confirmStaysFive w (transferAsset sender receiver assetId amount net w).2 :=
  confirmStaysFive_tryCatchLog _ _ _
    (confirmStaysFive_transferAssetBody sender receiver assetId amount net w)

theorem confirmStaysFive_callApplicationBody (sender : Account)
    (appId : Nat) (appArgs : List (String ⊕ List Nat))
    (accounts : List (Address ⊕ Account))
    (foreignApps foreignAssets : List Nat) (net : Network) (w : World) :
    confirmStaysFive w (callApplicationBody sender appId appArgs accounts
      foreignApps foreignAssets net w).2 := by
  unfold callApplicationBody getTransactionParams
  cases hp : net.paramsResp with
  | error e => simpa [hp] using confirmStaysFive_getParams w
  | ok sp =>
    simp only [hp]
    exact confirmStaysFive_trans (confirmStaysFive_getParams w)
      (confirmStaysFive_sSC net _ _ _ _)

theorem confirmStaysFive_callApplication (sender : Account) (appId : Nat)
    (appArgs : List (String ⊕ List Nat))
    (accounts : List (Address ⊕ Account))
    (foreignApps foreignAssets : List Nat) (net : Network) (w : World) :
    confirmStaysFive w (callApplication sender appId appArgs accounts
      foreignApps foreignAssets net w).2 :=
  confirmStaysFive_tryCatchLog _ _ _
    (confirmStaysFive_callApplicationBody sender appId appArgs accounts
      foreignApps foreignAssets net w)

theorem confirmStaysFive_createAssetBody (creator : Account)
    (assetName unitName : String) (totalIssuance decimals : Nat)
    (url : String) (metadataHash : Option (List Nat)) (net : Network)
    (w : World) :
    confirmStaysFive w (createAssetBody creator assetName unitName
      totalIssuance decimals url metadataHash net w).2 := by
  unfold createAssetBody getTransactionParams
  cases hp : net.paramsResp with
  | error e => simpa [hp] using confirmStaysFive_getParams w
  | ok sp =>
    simp only [hp]
    split
    next e w2 heq =>
      exact confirmStaysFive_trans (confirmStaysFive_getParams w)
        (confirmStaysFive_sSC' net _ _ _ _ heq)
    next c w2 heq =>
      exact confirmStaysFive_pushLog _
        (confirmStaysFive_trans (confirmStaysFive_getParams w)
          (confirmStaysFive_sSC' net _ _ _ _ heq))

theorem confirmStaysFive_createAsset (creator : Account)
    (assetName unitName : String) (totalIssuance decimals : Nat)
    (url : String) (metadataHash : Option (List Nat)) (net : Network)
    (w : World) :
    confirmStaysFive w (createAsset creator assetName unitName
      totalIssuance decimals url metadataHash net w).2 :=
  confirmStaysFive_tryCatchLog _ _ _
    (confirmStaysFive_createAssetBody creator assetName unitName
      totalIssuance decimals url metadataHash net w)

theorem confirmStaysFive_rekeyAccountBody (account authAccount : Account)
    (net : Network) (w : World) :
    confirmStaysFive w (rekeyAccountBody account authAccount net w).2 := by
  unfold rekeyAccountBody getTransactionParams
  cases hp : net.paramsResp with
  | error e => simpa [hp] using confirmStaysFive_getParams w
  | ok sp =>
    simp only [hp]
    split
    next e w2 heq =>
      exact confirmStaysFive_trans (confirmStaysFive_getParams w)
        (confirmStaysFive_sSC' net _ _ _ _ heq)
    next c w2 heq =>
      exact confirmStaysFive_pushLog _
        (confirmStaysFive_trans (confirmStaysFive_getParams w)
          (confirmStaysFive_sSC' net _ _ _ _ heq))

theorem confirmStaysFive_rekeyAccount (account authAccount : Account)
    (net : Network) (w : World) :
    confirmStaysFive w (rekeyAccount account authAccount net w).2 :=
  confirmStaysFive_tryCatchLog _ _ _
    (confirmStaysFive_rekeyAccountBody account authAccount net w)

theorem confirmStaysFive_sendAtomicTransactionsBody (sender : Account)
    (receivers : List (Address ⊕ Account)) (amount : Nat) (net : Network)
    (w : World) :
    confirmStaysFive w
      (sendAtomicTransactionsBody sender receivers amount net w).2 := by
  unfold sendAtomicTransactionsBody getTransactionParams
  cases hp : net.paramsResp with
  | error e => simpa [hp] using confirmStaysFive_getParams w
  | ok sp =>
    simp only [hp]
    split
    next e heq => exact confirmStaysFive_getParams w
    next gtxns heq =>
      exact confirmStaysFive_trans (confirmStaysFive_getParams w)
        (confirmStaysFive_sSC net _ _ _ _)

theorem confirmStaysFive_sendAtomicTransactions (sender : Account)
    (receivers : List (Address ⊕ Account)) (amount : Nat) (net : Network)
    (w : World) :
    confirmStaysFive w
      (sendAtomicTransactions sender receivers amount net w).2 :=
  confirmStaysFive_tryCatchLog _ _ _
    (confirmStaysFive_sendAtomicTransactionsBody sender receivers amount net w)

theorem confirmStaysFive_compileProgramBody (programSource : String)
    (net : Network) (w : World) :
    confirmStaysFive w (compileProgramBody programSource net w).2 := by
  have h1 : confirmStaysFive w (pushReq w (.compile programSource)) :=
    confirmStaysFive_pushReq _ (confirmStaysFive_refl w)
      (by intro t b h; exact absurd h (by simp))
  unfold compileProgramBody
  cases hc : net.compileResp programSource with
  | error e => simpa [hc] using h1
  | ok bytes => simpa [hc] using confirmStaysFive_pushLog _ h1

theorem confirmStaysFive_compileProgram (programSource : String)
    (net : Network) (w : World) :
    confirmStaysFive w (compileProgram programSource net w).2 :=
  confirmStaysFive_tryCatchLog _ _ _
    (confirmStaysFive_compileProgramBody programSource net w)

theorem confirmStaysFive_compileProgram' (programSource : String)
    (net : Network) (w : World) {p : Except Err (List Nat) × World}
    (h : compileProgram programSource net w = p) :
    confirmStaysFive w p.2 :=
  h ▸ confirmStaysFive_compileProgram programSource net w

theorem confirmStaysFive_createApplicationBody (creator : Account)
    (approvalProgram clearProgram : String)
    (globalInts globalBytes localInts localBytes : Nat) (net : Network)
    (w : World) :
    confirmStaysFive w (createApplicationBody creator approvalProgram
      clearProgram globalInts globalBytes localInts localBytes net w).2 := by
  unfold createApplicationBody getTransactionParams
  split
  next e w1 heq => exact confirmStaysFive_compileProgram' _ _ _ heq
  next capp w1 heq =>
    have h1 : confirmStaysFive w w1 :=
      confirmStaysFive_compileProgram' _ _ _ heq
    split
    next e w2 heq2 =>
      exact confirmStaysFive_trans h1
        (confirmStaysFive_compileProgram' _ _ _ heq2)
    next ccl w2 heq2 =>
      have h2 : confirmStaysFive w w2 :=
        confirmStaysFive_trans h1
          (confirmStaysFive_compileProgram' _ _ _ heq2)
      cases hp : net.paramsResp with
      | error e => simpa [hp] using
          confirmStaysFive_trans h2 (confirmStaysFive_getParams w2)
      | ok sp =>
        simp only [hp]
        have h3 : confirmStaysFive w (pushReq w2 .getParams) :=
          confirmStaysFive_trans h2 (confirmStaysFive_getParams w2)
        split
        next e w4 heq3 =>
          exact confirmStaysFive_trans h3
            (confirmStaysFive_sSC' net _ _ _ _ heq3)
        next c w4 heq3 =>
          exact confirmStaysFive_pushLog _
            (confirmStaysFive_trans h3
              (confirmStaysFive_sSC' net _ _ _ _ heq3))

theorem confirmStaysFive_createApplication (creator : Account)
    (approvalProgram clearProgram : String)
    (globalInts globalBytes localInts localBytes : Nat) (net : Network)
    (w : World) :
    confirmStaysFive w (createApplication creator approvalProgram
      clearProgram globalInts globalBytes localInts localBytes net w).2 :=
  confirmStaysFive_tryCatchLog _ _ _
    (confirmStaysFive_createApplicationBody creator approvalProgram
      clearProgram globalInts globalBytes localInts localBytes net w)

theorem confirmStaysFive_atcExecute (net : Network)
    (stxns : List SignedTxn) (w : World) :
    confirmStaysFive w (atcExecute net stxns 5 w).2 := by
  have h1 : confirmStaysFive w (pushReq w (.submit stxns)) :=
    confirmStaysFive_pushReq _ (confirmStaysFive_refl w)
      (by intro t b h; exact absurd h (by simp))
  unfold atcExecute waitForConfirmation
  cases hs : net.submitResp stxns with
  | error e => simpa [hs] using h1
  | ok txId =>
    have h3 : confirmStaysFive w
        (pushReq (pushReq w (.submit stxns)) (.confirm txId 5)) :=
      confirmStaysFive_pushReq _ h1
        (by intro t b h; injection h with h1 h2; exact h2.symm)
    cases hc : net.confirmResp txId 5 with
    | error e => simpa [hs, hc] using h3
    | ok c => simpa [hs, hc] using h3

theorem confirmStaysFive_callABIMethodBody (sender : Account)
    (appId : Nat) (methodName : String) (methodArgs : List String)
    (net : Network) (w : World) :
    confirmStaysFive w
      (callABIMethodBody sender appId methodName methodArgs net w).2 := by
  unfold callABIMethodBody getTransactionParams
  cases hp : net.paramsResp with
  | error e => simpa [hp] using confirmStaysFive_getParams w
  | ok sp =>
    simp only [hp]
    exact confirmStaysFive_trans (confirmStaysFive_getParams w)
      (confirmStaysFive_atcExecute net _ _)

theorem confirmStaysFive_callABIMethod (sender : Account) (appId : Nat)
    (methodName : String) (methodArgs : List String) (net : Network)
    (w : World) :
    confirmStaysFive w
      (callABIMethod sender appId methodName methodArgs net w).2 :=
  confirmStaysFive_tryCatchLog _ _ _
    (confirmStaysFive_callABIMethodBody sender appId methodName methodArgs
      net w)

theorem sSC_submit_mem (net : Network) (stxns : List SignedTxn)
    (idMsg roundMsg : String) (w : World) :
    NetRequest.submit stxns
      ∈ (signSubmitConfirm net stxns idMsg roundMsg w).2.requests := by
  unfold signSubmitConfirm waitForConfirmation
  cases hs : net.submitResp stxns with
  | error e => simp [pushReq]
  | ok txId =>
    cases hc : net.confirmResp txId 5 with
    | error e => simp [hs, hc, pushReq, pushLog]
    | ok c => simp [hs, hc, pushReq, pushLog]

/-- Claim C5: for every account and asset id, `optInToAsset` constructs
the opt-in request as an asset transfer whose sender and receiver are
both the account's address and whose amount is zero, and (whenever the
parameter fetch answers) submits exactly the signature of that request;
the construction itself needs no network access. -/
theorem claim_C5 (account : Account) (assetId : Nat)
    (sp : SuggestedParams) :
    (optInTxn account assetId sp).typ = .axfer
  ∧ (optInTxn account assetId sp).sender = account.addr
  ∧ (optInTxn account assetId sp).receiver = some account.addr
  ∧ (optInTxn account assetId sp).amount = some 0
  ∧ (optInTxn account assetId sp).assetIndex = some assetId
  ∧ ∀ (net : Network) (w : World), net.paramsResp = .ok sp →
      NetRequest.submit [signTxn (optInTxn account assetId sp) account.sk]
        ∈ (optInToAsset account assetId net w).2.requests := by
  refine ⟨rfl, rfl, rfl, rfl, rfl, ?_⟩
  intro net w hp
  rw [show (optInToAsset account assetId net w).2.requests
      = (optInToAssetBody account assetId net w).2.requests from
    tryCatchLog_requests _ _ _]
  unfold optInToAssetBody getTransactionParams
  simp only [hp]
  exact sSC_submit_mem net _ _ _ _

/-- Witness for claim C5 at a concrete account, asset id and network. -/
theorem claim_C5_witness :
    ((netOk conf4).paramsResp = .ok sp0)
  ∧ NetRequest.submit [signTxn (optInTxn acct0 7 sp0) acct0.sk]
      ∈ (optInToAsset acct0 7 (netOk conf4) w0).2.requests :=
  ⟨rfl, (claim_C5 acct0 7 sp0).2.2.2.2.2 (netOk conf4) w0 rfl⟩

/-- Claim C9: in the transaction-operations `sendPayment`, an omitted or
empty note string yields a payment request with no note field, and a
non-empty note string yields exactly its UTF-8 encoding as the note. -/
theorem claim_C9 (sender : Account) (receiver : Address ⊕ Account)
    (amount : Nat) (sp : SuggestedParams) :
    (sendPaymentTxn sender receiver amount "" sp).note = none
  ∧ ∀ note : String, note ≠ "" →
      (sendPaymentTxn sender receiver amount note sp).note
        = some (textEncode note) := by
  constructor
  · rfl
  · intro note h
    simp [sendPaymentTxn, makePaymentTxn, h]

/-- Witness for claim C9 at a concrete non-empty note. -/
theorem claim_C9_witness :
    ("hello" ≠ "")
  ∧ (sendPaymentTxn acct0 (.inr acct1) 5 "hello" sp0).note
      = some (textEncode "hello") :=
  ⟨by decide, (claim_C9 acct0 (.inr acct1) 5 sp0).2 "hello" (by decide)⟩

/-- Claim C7: every embedded operation that waits for inclusion issues
its confirmation-wait requests with a round budget of exactly 5 — any
confirmation request present after the call and not already present
before it carries budget 5.  The round budget is a literal in each
operation: no operation takes a caller-supplied timeout argument, as the
embedded signatures show. -/
theorem claim_C7 :
    (∀ sender receiver amount note net w,
      confirmStaysFive w (sendPayment sender receiver amount note net w).2)
  ∧ (∀ creator assetName unitName totalIssuance decimals url mh net w,
      confirmStaysFive w (createAsset creator assetName unitName
        totalIssuance decimals url mh net w).2)
  ∧ (∀ account assetId net w,
      confirmStaysFive w (optInToAsset account assetId net w).2)
  ∧ (∀ sender receiver assetId amount net w,
      confirmStaysFive w (transferAsset sender receiver assetId amount net w).2)
  ∧ (∀ sender receivers amount net w,
      confirmStaysFive w (sendAtomicTransactions sender receivers amount net w).2)
  ∧ (∀ account authAccount net w,
      confirmStaysFive w (rekeyAccount account authAccount net w).2)
  ∧ (∀ creator ap cp gI gB lI lB net w,
      confirmStaysFive w (createApplication creator ap cp gI gB lI lB net w).2)
  ∧ (∀ sender appId appArgs accounts fApps fAssets net w,
      confirmStaysFive w (callApplication sender appId appArgs accounts
        fApps fAssets net w).2)
  ∧ (∀ sender appId methodName methodArgs net w,
      confirmStaysFive w (callABIMethod sender appId methodName methodArgs net w).2) :=
  ⟨confirmStaysFive_sendPayment, confirmStaysFive_createAsset,
    confirmStaysFive_optInToAsset, confirmStaysFive_transferAsset,
    confirmStaysFive_sendAtomicTransactions, confirmStaysFive_rekeyAccount,
    confirmStaysFive_createApplication, confirmStaysFive_callApplication,
    confirmStaysFive_callABIMethod⟩

/-- Witness for claim C7: on a concrete successful run a confirmation
request is actually issued, and the theorem forces its budget to be 5. -/
theorem claim_C7_witness :
    (NetRequest.confirm 1 5
      ∈ (optInToAsset acct0 7 (netOk conf4) w0).2.requests)
  ∧ (NetRequest.confirm 1 5 ∈ w0.requests ∨ 5 = 5) :=
  ⟨by decide, claim_C7.2.2.1 acct0 7 (netOk conf4) w0 1 5 (by decide)⟩

/-- Claim C8: the operations wrap their delegated steps in a catch that
logs the error with its context line and re-raises the very same error
value, with no retry, no recovery and no extra network activity; an
operation's result is exactly its body's result, so it raises if and only
if a delegated step failed.  Stated for the three cited operations
`sendPayment`, `callApplication` and `rekeyAccount`. -/
theorem claim_C8 :
    (∀ sender receiver amount note net w,
        (sendPayment sender receiver amount note net w).1
          = (sendPaymentBody sender receiver amount note net w).1
      ∧ (sendPayment sender receiver amount note net w).2.requests
          = (sendPaymentBody sender receiver amount note net w).2.requests
      ∧ ∀ e, (sendPaymentBody sender receiver amount note net w).1 = .error e →
          (sendPayment sender receiver amount note net w).2.log
            = (sendPaymentBody sender receiver amount note net w).2.log
              ++ ["Error sending payment:" ++ " " ++ e])
  ∧ (∀ sender appId appArgs accounts fApps fAssets net w,
        (callApplication sender appId appArgs accounts fApps fAssets net w).1
          = (callApplicationBody sender appId appArgs accounts fApps fAssets net w).1
      ∧ (callApplication sender appId appArgs accounts fApps fAssets net w).2.requests
          = (callApplicationBody sender appId appArgs accounts fApps fAssets net w).2.requests
      ∧ ∀ e, (callApplicationBody sender appId appArgs accounts fApps fAssets net w).1
            = .error e →
          (callApplication sender appId appArgs accounts fApps fAssets net w).2.log
            = (callApplicationBody sender appId appArgs accounts fApps fAssets net w).2.log
              ++ ["Error calling application:" ++ " " ++ e])
  ∧ (∀ account authAccount net w,
        (rekeyAccount account authAccount net w).1
          = (rekeyAccountBody account authAccount net w).1
      ∧ (rekeyAccount account authAccount net w).2.requests
          = (rekeyAccountBody account authAccount net w).2.requests
      ∧ ∀ e, (rekeyAccountBody account authAccount net w).1 = .error e →
          (rekeyAccount account authAccount net w).2.log
            = (rekeyAccountBody account authAccount net w).2.log
              ++ ["Error rekeying account:" ++ " " ++ e]) := by
  refine ⟨?_, ?_, ?_⟩
  · intro sender receiver amount note net w
    exact ⟨tryCatchLog_fst _ _ _, tryCatchLog_requests _ _ _,
      fun e he => tryCatchLog_error_log _ _ _ e he⟩
  · intro sender appId appArgs accounts fApps fAssets net w
    exact ⟨tryCatchLog_fst _ _ _, tryCatchLog_requests _ _ _,
      fun e he => tryCatchLog_error_log _ _ _ e he⟩
  · intro account authAccount net w
    exact ⟨tryCatchLog_fst _ _ _, tryCatchLog_requests _ _ _,
      fun e he => tryCatchLog_error_log _ _ _ e he⟩

/-- Witness for claim C8 on a concrete failing network: the body fails
with "boom" and the operation appends exactly the context log line. -/
theorem claim_C8_witness :
    ((sendPaymentBody acct0 (.inr acct1) 5 "" netFail w0).1 = .error "boom")
  ∧ (sendPayment acct0 (.inr acct1) 5 "" netFail w0).2.log
      = (sendPaymentBody acct0 (.inr acct1) 5 "" netFail w0).2.log
        ++ ["Error sending payment:" ++ " " ++ "boom"] :=
  ⟨rfl,
    (claim_C8.1 acct0 (.inr acct1) 5 "" netFail w0).2.2 "boom" rfl⟩

/-- Counterexample to claim C3 as stated: `createAsset` does not return
the confirmation record.  On this concrete input its result is the
extracted created-asset id and is unchanged when the network's
confirmation record changes its inclusion round, so the returned value
cannot be the record carrying the inclusion round. -/
theorem claim_C3_counterexample :
    (createAsset acct0 "Example Token" "EX" 1000000 0 "" none
        (netOk conf4) w0).1
      = (createAsset acct0 "Example Token" "EX" 1000000 0 "" none
        (netOk conf11) w0).1
  ∧ (createAsset acct0 "Example Token" "EX" 1000000 0 "" none
        (netOk conf4) w0).1 = .ok (some 7)
  ∧ (netOk conf4).confirmResp 1 5 = .ok conf4
  ∧ (netOk conf11).confirmResp 1 5 = .ok conf11
  ∧ conf4.confirmedRound ≠ conf11.confirmedRound := by
  exact ⟨rfl, rfl, rfl, rfl, by decide⟩

/-- Claim C3 as amended: on success `sendPayment`, `optInToAsset` and
`transferAsset` return the confirmation record reported by the network,
while `createAsset` and `createApplication` return the created asset id
and created application id extracted from that record; on a failing
delegated step the operations raise the failure. -/
theorem claim_C3 (net : Network) (sp : SuggestedParams) (tid : TxId)
    (c : Confirmation) (e : Err) (hp : net.paramsResp = .ok sp)
    (hs : ∀ stxns, net.submitResp stxns = .ok tid)
    (hc : net.confirmResp tid 5 = .ok c) :
    (∀ sender receiver amount note w,
        (sendPayment sender receiver amount note net w).1 = .ok c)
  ∧ (∀ account assetId w,
        (optInToAsset account assetId net w).1 = .ok c)
  ∧ (∀ sender receiver assetId amount w,
        (transferAsset sender receiver assetId amount net w).1 = .ok c)
  ∧ (∀ creator assetName unitName totalIssuance decimals url mh w,
        (createAsset creator assetName unitName totalIssuance decimals
          url mh net w).1 = .ok c.assetIndex)
  ∧ (∀ prog, (∀ s, net.compileResp s = .ok prog) →
        ∀ creator ap cp gI gB lI lB w,
          (createApplication creator ap cp gI gB lI lB net w).1
            = .ok c.applicationIndex)
  ∧ (∀ net' : Network, net'.paramsResp = .error e →
        (∀ sender receiver amount note w,
            (sendPayment sender receiver amount note net' w).1 = .error e)
      ∧ (∀ creator assetName unitName totalIssuance decimals url mh w,
            (createAsset creator assetName unitName totalIssuance decimals
              url mh net' w).1 = .error e)) := by
  refine ⟨?_, ?_, ?_, ?_, ?_, ?_⟩
  · intro sender receiver amount note w
    unfold sendPayment
    rw [tryCatchLog_fst]
    unfold sendPaymentBody getTransactionParams signSubmitConfirm
      waitForConfirmation
    simp [hp, hs, hc]
  · intro account assetId w
    unfold optInToAsset
    rw [tryCatchLog_fst]
    unfold optInToAssetBody getTransactionParams signSubmitConfirm
      waitForConfirmation
    simp [hp, hs, hc]
  · intro sender receiver assetId amount w
    unfold transferAsset
    rw [tryCatchLog_fst]
    unfold transferAssetBody getTransactionParams signSubmitConfirm
      waitForConfirmation
    simp [hp, hs, hc]
  · intro creator assetName unitName totalIssuance decimals url mh w
    unfold createAsset
    rw [tryCatchLog_fst]
    unfold createAssetBody getTransactionParams signSubmitConfirm
      waitForConfirmation
    simp [hp, hs, hc]
  · intro prog hcomp creator ap cp gI gB lI lB w
    unfold createApplication
    rw [tryCatchLog_fst]
    unfold createApplicationBody compileProgram getTransactionParams
      signSubmitConfirm waitForConfirmation
    simp [tryCatchLog, compileProgramBody, hcomp, hp, hs, hc]
  · intro net' hp'
    constructor
    · intro sender receiver amount note w
      unfold sendPayment
      rw [tryCatchLog_fst]
      unfold sendPaymentBody getTransactionParams
      simp [hp']
    · intro creator assetName unitName totalIssuance decimals url mh w
      unfold createAsset
      rw [tryCatchLog_fst]
      unfold createAssetBody getTransactionParams
      simp [hp']

/-- Witness for claim C3 at a concrete successful network and a concrete
failing one. -/
theorem claim_C3_witness :
    ((netOk conf4).paramsResp = .ok sp0)
  ∧ ((netOk conf4).confirmResp 1 5 = .ok conf4)
  ∧ (netFail.paramsResp = .error "boom")
  ∧ (optInToAsset acct0 7 (netOk conf4) w0).1 = .ok conf4
  ∧ (createAsset acct0 "T" "U" 10 0 "" none netFail w0).1 = .error "boom" :=
  ⟨rfl, rfl, rfl,
    (claim_C3 (netOk conf4) sp0 1 conf4 "boom" rfl (fun _ => rfl) rfl).2.1
      acct0 7 w0,
    ((claim_C3 (netOk conf4) sp0 1 conf4 "boom" rfl (fun _ => rfl)
      rfl).2.2.2.2.2 netFail rfl).2 acct0 "T" "U" 10 0 "" none w0⟩

/-- Claim C4: in `sendAtomicTransactions`, the group identifier is
assigned to the whole prepared list before signing and stamps every
prepared request with the one shared identifier, and what is submitted is
the signature of the grouped requests; on an empty receiver list the
assignment fails and so does the operation. -/
theorem claim_C4 (sender : Account) (receivers : List (Address ⊕ Account))
    (amount : Nat) (net : Network) (w : World) (sp : SuggestedParams)
    (hp : net.paramsResp = .ok sp) :
    (receivers = [] →
      (sendAtomicTransactions sender receivers amount net w).1
        = .error "cannot compute the group id of an empty transaction list")
  ∧ (receivers ≠ [] →
        assignGroupID (atomicTxns sender receivers amount sp)
          = .ok (groupedAtomicTxns sender receivers amount sp)
      ∧ (∀ t ∈ groupedAtomicTxns sender receivers amount sp,
          t.group = some (computeGroupID (atomicTxns sender receivers amount sp)))
      ∧ NetRequest.submit ((groupedAtomicTxns sender receivers amount sp).map
            (fun t => signTxn t sender.sk))
          ∈ (sendAtomicTransactions sender receivers amount net w).2.requests) := by
  constructor
  · intro h
    subst h
    unfold sendAtomicTransactions
    rw [tryCatchLog_fst]
    unfold sendAtomicTransactionsBody getTransactionParams
    simp [hp, atomicTxns, assignGroupID]
  · intro h
    have hnil : atomicTxns sender receivers amount sp ≠ [] := by
      simp only [atomicTxns, ne_eq, List.mapIdx_eq_nil_iff]
      exact h
    have hne : (atomicTxns sender receivers amount sp).isEmpty = false := by
      simp [List.isEmpty_iff, hnil]
    have hok : assignGroupID (atomicTxns sender receivers amount sp)
        = .ok (groupedAtomicTxns sender receivers amount sp) := by
      unfold assignGroupID groupedAtomicTxns
      simp [hne]
    refine ⟨hok, ?_, ?_⟩
    · intro t ht
      unfold groupedAtomicTxns at ht
      rcases List.mem_map.mp ht with ⟨t0, _, rfl⟩
      rfl
    · rw [show (sendAtomicTransactions sender receivers amount net w).2.requests
          = (sendAtomicTransactionsBody sender receivers amount net w).2.requests from
        tryCatchLog_requests _ _ _]
      unfold sendAtomicTransactionsBody getTransactionParams
      simp only [hp, hok]
      exact sSC_submit_mem net _ _ _ _

/-- Witness for claim C4 at a concrete two-receiver group. -/
theorem claim_C4_witness :
    ((netOk conf4).paramsResp = .ok sp0)
  ∧ ([(.inr acct1), (.inl 42)] ≠ ([] : List (Address ⊕ Account)))
  ∧ NetRequest.submit
        ((groupedAtomicTxns acct0 [(.inr acct1), (.inl 42)] 3 sp0).map
          (fun t => signTxn t acct0.sk))
      ∈ (sendAtomicTransactions acct0 [(.inr acct1), (.inl 42)] 3
          (netOk conf4) w0).2.requests :=
  ⟨rfl, by decide,
    ((claim_C4 acct0 [(.inr acct1), (.inl 42)] 3 (netOk conf4) w0 sp0
      rfl).2 (by decide)).2.2⟩

/-- Claim C6: a state entry whose value-type discriminant is 1 decodes to
the base64-decoded payload read as text, any other discriminant decodes
to the entry's integer field, and `readGlobalState` and `readLocalState`
decode each entry of the fetched key/value list exactly this way. -/
theorem claim_C6 :
    (∀ v : TealValue, v.type = 1 →
        decodeStateValue v = .str (b64ToText v.bytes))
  ∧ (∀ v : TealValue, v.type ≠ 1 → decodeStateValue v = .int v.uint)
  ∧ (∀ appId net w app items, net.appInfoResp appId = .ok app →
        app.params.globalState = some items →
        (readGlobalState appId net w).1 = .ok (decodeStateItems items))
  ∧ (∀ account appId net w info apps als items,
        net.accountInfoResp (receiverAddress account) = .ok info →
        info.appsLocalState = some apps →
        apps.find? (fun a => a.id == appId) = some als →
        als.keyValue = some items →
        (readLocalState account appId net w).1 = .ok (decodeStateItems items)) := by
  refine ⟨?_, ?_, ?_, ?_⟩
  · intro v hv
    simp [decodeStateValue, hv]
  · intro v hv
    simp [decodeStateValue, hv]
  · intro appId net w app items hi hgs
    unfold readGlobalState
    rw [tryCatchLog_fst]
    unfold readGlobalStateBody
    simp [hi, hgs]
  · intro account appId net w info apps als items hi happs hfind hkv
    unfold readLocalState
    rw [tryCatchLog_fst]
    unfold readLocalStateBody
    simp [hi, happs, hfind, hkv]

/-- Witness for claim C6 at concrete entries ("a" ↦ text "hi", "b" ↦ 42)
and a concrete network. -/
theorem claim_C6_witness :
    (stateItem1.value.type = 1)
  ∧ decodeStateValue stateItem1.value = .str (b64ToText stateItem1.value.bytes)
  ∧ decodeStateValue stateItem2.value = .int stateItem2.value.uint
  ∧ (readGlobalState 9 (netApp (some [stateItem1, stateItem2])) w0).1
      = .ok (decodeStateItems [stateItem1, stateItem2]) :=
  ⟨rfl, claim_C6.1 stateItem1.value rfl,
    claim_C6.2.1 stateItem2.value (by decide),
    claim_C6.2.2.1 9 (netApp (some [stateItem1, stateItem2])) w0
      { params := { globalState := some [stateItem1, stateItem2] } }
      [stateItem1, stateItem2] rfl rfl⟩

/-- Claim C10: when the application has no global-state list,
`readGlobalState` returns the empty object without raising, and when the
account's apps-local-state list is absent or has no entry whose id equals
the requested application id, `readLocalState` returns the empty object
without raising. -/
theorem claim_C10 :
    (∀ appId net w app, net.appInfoResp appId = .ok app →
        app.params.globalState = none →
        (readGlobalState appId net w).1 = .ok [])
  ∧ (∀ account appId net w info,
        net.accountInfoResp (receiverAddress account) = .ok info →
        (info.appsLocalState.getD []).find? (fun a => a.id == appId) = none →
        (readLocalState account appId net w).1 = .ok []) := by
  constructor
  · intro appId net w app hi hgs
    unfold readGlobalState
    rw [tryCatchLog_fst]
    unfold readGlobalStateBody
    simp [hi, hgs]
  · intro account appId net w info hi hfind
    unfold readLocalState
    rw [tryCatchLog_fst]
    unfold readLocalStateBody
    cases hals : info.appsLocalState with
    | none => simp [hi, hals]
    | some apps =>
      rw [hals] at hfind
      simp only [Option.getD_some] at hfind
      simp [hi, hals, hfind]

/-- Witness for claim C10 at concrete empty responses. -/
theorem claim_C10_witness :
    ((netApp none).appInfoResp 9 = .ok { params := { globalState := none } })
  ∧ ((netAcct none).accountInfoResp (receiverAddress (.inr acct0))
      = .ok { appsLocalState := none })
  ∧ (readGlobalState 9 (netApp none) w0).1 = .ok []
  ∧ (readLocalState (.inr acct0) 9 (netAcct none) w0).1 = .ok [] :=
  ⟨rfl, rfl,
    claim_C10.1 9 (netApp none) w0 { params := { globalState := none } }
      rfl rfl,
    claim_C10.2 (.inr acct0) 9 (netAcct none) w0
      { appsLocalState := none } rfl rfl⟩
